import Mathlib

/-!
Verification of the modal view-binding component
(`src/frontend/components/modal/ModalBase.vue`) against its design
specification.

The component binds one dialog instance to a named entry of a
process-wide modal registry (the `useModals` store), mirrors the
entry's `isOpen` into a local reactive flag `modalIsOpen`, and runs a
close protocol (emit the `closeModal` event, then call the registry's
`closeModal`) on dismiss gestures and on route changes.

The embedding below is shallow: the registry is a partial map from
names to open flags, the binding's script logic is a step function on
an explicit system state, and the template's dismiss-gesture wiring is
a small event-dispatch model over the element tree.
-/

namespace ModalBase

/-! ## The modal registry

Modelled from the spec: the Modal Registry store (`useModals`, with its
`modals` map and the `openModal`/`closeModal` operations) is not under
`src/`; only the view binding that calls it is.  Per the spec (§3, §4.1)
it is a mapping from `name` to an entry whose `isOpen` is a boolean;
`open(name)` creates the entry if needed and sets `isOpen := true`;
`close(name)` sets `isOpen := false` if the entry exists and is a no-op
otherwise; `get(name)` reads without side effects; entries are never
deleted. -/

/-- The registry as a partial map: `r n = some b` means an entry for
name `n` exists with `isOpen = b`; `r n = none` means no entry ("absent"). -/
def Registry : Type := String → Option Bool

/-- The `get(name)` operation: side-effect-free read of the entry's
`isOpen` (or absent). -/
def Registry.get (r : Registry) (n : String) : Option Bool := r n

/-- The `open(name)` operation: ensure the entry exists and set
`isOpen := true`. -/
def Registry.openModal (r : Registry) (n : String) : Registry :=
  fun m => if m = n then some true else r m

/-- The `close(name)` operation: set `isOpen := false` if the entry
exists; no-op otherwise. -/
def Registry.closeModal (r : Registry) (n : String) : Registry :=
  fun m => if m = n then (r m).map (fun _ => false) else r m

/-- The empty registry (no entry for any name). -/
def Registry.empty : Registry := fun _ => none

/-! ## The view binding's script logic (from `ModalBase.vue`, script setup) -/

/-- The component's props (`imageModal?: boolean; modalName: string`). -/
structure Props where
  imageModal : Bool
  modalName : String

/-- Per-instance binding state: the name captured once at setup by
`const modalName = props.modalName` and the local reactive flag
`const modalIsOpen = ref(false)`. -/
structure Binding where
  modalName : String
  modalIsOpen : Bool

/-- Effects observable outside the binding, in emission order: the
payload-free `closeModal` event emitted to the embedding caller
(`emit("closeModal")`), and the call into the registry's close
operation (`modals.closeModal(modalName)`). -/
inductive Effect where
  | emitClosed : Effect
  | registryClose : String → Effect
deriving DecidableEq, Repr

/-- The whole system: the shared registry, this binding instance, the
trace of effects the binding has performed, and the current value of
the `modalName` prop as the parent sees it (the binding itself read it
once at setup). -/
structure State where
  registry : Registry
  binding : Binding
  trace : List Effect
  props : Props

/-- The registry watcher
`watch(() => modals.modals[modalName]?.isOpen, (newVal) => { if (newVal !== undefined) modalIsOpen.value = newVal })`:
Vue fires the callback only when the watched value changes, and the
body updates the flag only when the new value is defined. -/
def watcherFire (oldVal newVal : Option Bool) (flag : Bool) : Bool :=
  if newVal = oldVal then
    flag
  else
    match newVal with
    | some v => v
    | none => flag

/-- Run the binding's registry watcher after the registry changed from
`r` to `r'` (change notification is synchronous per spec §4.1). -/
def propagate (r r' : Registry) (b : Binding) : Binding :=
  { b with modalIsOpen := watcherFire (r.get b.modalName) (r'.get b.modalName) b.modalIsOpen }

/-- The close protocol (`const closeModal = () => { emit("closeModal"); modals.closeModal(modalName); }`):
first emit the payload-free `closeModal` event, then call the
registry's close for the captured name; the registry mutation is then
observed by the binding's own watcher. -/
def closeProtocol (s : State) : State :=
  let r' := s.registry.closeModal s.binding.modalName
  { registry := r'
    binding := propagate s.registry r' s.binding
    trace := s.trace ++ [Effect.emitClosed, Effect.registryClose s.binding.modalName]
    props := s.props }

/-- The events the system can process. -/
inductive Action where
  /-- Run `onMounted`: if the registry holds an entry for the captured
  name, copy its `isOpen` into the local flag. -/
  | mount : Action
  /-- A user dismiss gesture reaching a `closeModal()` handler. -/
  | dismiss : Action
  /-- A route change observed by `watch(route, ...)`: run the close
  protocol iff `modals.modals[modalName]` is defined. -/
  | navigate : Action
  /-- An external actor calls the registry's `open(n)`. -/
  | regOpen : String → Action
  /-- An external actor calls the registry's `close(n)`. -/
  | regClose : String → Action
  /-- The parent changes the `modalName` prop to `n`; the binding read
  the prop once at setup (`const modalName = props.modalName`), so only
  the prop value itself changes. -/
  | setProp : String → Action

/-- One step of the system. Every registry mutation is immediately
followed by the binding's watcher (synchronous notification). -/
def step (a : Action) (s : State) : State :=
  match a with
  | Action.mount =>
      match s.registry.get s.binding.modalName with
      | some b => { s with binding := { s.binding with modalIsOpen := b } }
      | none => s
  | Action.dismiss => closeProtocol s
  | Action.navigate =>
      match s.registry.get s.binding.modalName with
      | some _ => closeProtocol s
      | none => s
  | Action.regOpen n =>
      let r' := s.registry.openModal n
      { s with registry := r', binding := propagate s.registry r' s.binding }
  | Action.regClose n =>
      let r' := s.registry.closeModal n
      { s with registry := r', binding := propagate s.registry r' s.binding }
  | Action.setProp n =>
      { s with props := { s.props with modalName := n } }

/-- Construct the binding in an existing registry:
`const modalName = props.modalName; const modalIsOpen = ref(false)`. -/
def init (p : Props) (r : Registry) : State :=
  { registry := r
    binding := { modalName := p.modalName, modalIsOpen := false }
    trace := []
    props := p }

/-- Run a sequence of actions. -/
def run (acts : List Action) (s : State) : State :=
  acts.foldl (fun s a => step a s) s

/-! ## The template's dismiss-gesture wiring (from `ModalBase.vue`, template)

The template nests, from the outside in: the `Dialog`, the wrapping
`div` (which carries `@click="closeModal()"` and
`@keydown.enter="closeModal()"` in both variants), the `DialogPanel`,
and inside the panel either (image variant) a close button plus a
focusable content wrapper carrying `@click="closeModal()"`, or (card
variant) a close button plus a plain content `div` with no handlers.

Modelled from the spec: `DialogPanel` is the external UI-toolkit
collaborator (Headless UI); its contract is that click events do not
propagate out of the panel (this is what makes the panel area not
click-to-dismiss while the surrounding region is), while keyboard
events propagate normally.  The collaborator's code is not part of this
repository. -/

/-- An element on the bubbling path of a DOM event: whether it has a
`closeModal` click handler, whether it has a `closeModal` keydown-Enter
handler, and whether it stops click propagation. -/
structure Node where
  onClick : Bool
  onKeydownEnter : Bool
  stopsClick : Bool

/-- The wrapping `div` (template lines 7–16): `@click` and
`@keydown.enter` both call `closeModal()`, in both variants. -/
def wrapperDiv : Node := { onClick := true, onKeydownEnter := true, stopsClick := false }

/-- The `DialogPanel` (external collaborator): no `closeModal` handlers
of its own; stops click propagation, passes keyboard events. -/
def dialogPanel : Node := { onClick := false, onKeydownEnter := false, stopsClick := true }

/-- The image-variant content wrapper (`v-if="imageModal"`, with
`@click="closeModal()"`, `tabindex="0"`, `role="button"`). -/
def imageContentWrapper : Node := { onClick := true, onKeydownEnter := false, stopsClick := false }

/-- The card-variant content `div` around the slot (`v-else`): no handlers. -/
def cardContentDiv : Node := { onClick := false, onKeydownEnter := false, stopsClick := false }

/-- Either variant's explicit close control (a `button` with
`@click="closeModal()"`). -/
def closeButton : Node := { onClick := true, onKeydownEnter := false, stopsClick := false }

/-- The kind of DOM event a gesture produces. -/
inductive EvKind where
  | click : EvKind
  | keydownEnter : EvKind
deriving DecidableEq

/-- The dismiss gestures the design talks about. -/
inductive Gesture where
  /-- A click on the content region (inside the panel, not on the close control). -/
  | clickContent : Gesture
  /-- An Enter keydown while focus is inside the content region
  (the image variant's content wrapper is focusable by `tabindex="0"`;
  in the card variant slotted content such as the search input may hold
  focus). -/
  | enterInContent : Gesture
  /-- A click on the explicit close control. -/
  | clickCloseControl : Gesture
  /-- A click on the backdrop region (the wrapping `div` outside the panel). -/
  | clickBackdrop : Gesture
deriving DecidableEq

/-- The DOM event kind each gesture produces. -/
def Gesture.kind : Gesture → EvKind
  | Gesture.clickContent => EvKind.click
  | Gesture.enterInContent => EvKind.keydownEnter
  | Gesture.clickCloseControl => EvKind.click
  | Gesture.clickBackdrop => EvKind.click

/-- The bubbling path (innermost element first) from a gesture's target
to the wrapping `div`, per presentation variant. -/
def path (imageModal : Bool) : Gesture → List Node
  | Gesture.clickContent =>
      (if imageModal then imageContentWrapper else cardContentDiv) :: dialogPanel :: [wrapperDiv]
  | Gesture.enterInContent =>
      (if imageModal then imageContentWrapper else cardContentDiv) :: dialogPanel :: [wrapperDiv]
  | Gesture.clickCloseControl => closeButton :: dialogPanel :: [wrapperDiv]
  | Gesture.clickBackdrop => [wrapperDiv]

/-- Bubble an event along a path: a node's matching handler fires
`closeModal`; a node that stops click propagation ends a click's
bubbling; keyboard events always continue. -/
def dispatch : List Node → EvKind → Bool
  | [], _ => false
  | n :: rest, EvKind.click => n.onClick || (!n.stopsClick && dispatch rest EvKind.click)
  | n :: rest, EvKind.keydownEnter => n.onKeydownEnter || dispatch rest EvKind.keydownEnter

/-- Whether a gesture triggers the close protocol, per variant. -/
def closeFires (imageModal : Bool) (g : Gesture) : Bool :=
  dispatch (path imageModal g) g.kind

/-! ## Helper lemmas -/

/-- No action rebinds the captured name. -/
theorem step_modalName (a : Action) (s : State) :
    (step a s).binding.modalName = s.binding.modalName := by
  cases a <;>
    simp only [step, closeProtocol, propagate] <;>
    first
      | rfl
      | (split <;> rfl)

/-- Running any action sequence never rebinds the captured name. -/
theorem run_modalName (acts : List Action) (s : State) :
    (run acts s).binding.modalName = s.binding.modalName := by
  induction acts generalizing s with
  | nil => rfl
  | cons a rest ih =>
      calc (run (a :: rest) s).binding.modalName
          = (run rest (step a s)).binding.modalName := rfl
        _ = (step a s).binding.modalName := ih (step a s)
        _ = s.binding.modalName := step_modalName a s

/-- When the watched value actually changed and the new value is
defined, the watcher writes exactly the new value. -/
theorem watcherFire_ne (oldVal newVal : Option Bool) (flag v : Bool)
    (hne : newVal ≠ oldVal) (hv : newVal = some v) :
    watcherFire oldVal newVal flag = v := by
  unfold watcherFire
  rw [if_neg hne, hv]

/-- If the watcher changed the flag, the new flag is the watched value. -/
theorem watcherFire_change (oldVal newVal : Option Bool) (flag : Bool)
    (h : watcherFire oldVal newVal flag ≠ flag) :
    newVal = some (watcherFire oldVal newVal flag) := by
  unfold watcherFire at h ⊢
  by_cases heq : newVal = oldVal
  · rw [if_pos heq] at h
    exact absurd rfl h
  · rw [if_neg heq] at h ⊢
    cases newVal with
    | none => exact absurd rfl h
    | some v => rfl

/-- Closing a name never produces an open entry at that name. -/
theorem get_closeModal_self (r : Registry) (n : String) :
    (r.closeModal n).get n ≠ some true := by
  simp only [Registry.closeModal, Registry.get, if_pos rfl]
  cases r n <;> simp

/-- Closing one name leaves every other name's entry unchanged. -/
theorem get_closeModal_other (r : Registry) (n m : String) (h : m ≠ n) :
    (r.closeModal n).get m = r.get m := by
  simp only [Registry.closeModal, Registry.get, if_neg h]

/-- The no-drift property: whenever an entry for the bound name exists,
the local flag equals its `isOpen`. -/
def Inv (s : State) : Prop :=
  ∀ b : Bool, s.registry.get s.binding.modalName = some b → s.binding.modalIsOpen = b

/-- The watcher maintains the no-drift property across any registry
change. -/
theorem propagate_inv (r r' : Registry) (b : Binding)
    (h : ∀ v, r.get b.modalName = some v → b.modalIsOpen = v) :
    ∀ v, r'.get b.modalName = some v → (propagate r r' b).modalIsOpen = v := by
  intro v hv
  unfold propagate
  by_cases heq : r'.get b.modalName = r.get b.modalName
  · have : r.get b.modalName = some v := heq ▸ hv
    simp only [watcherFire, if_pos heq]
    exact h v this
  · exact watcherFire_ne _ _ _ _ heq hv

/-- Running `onMounted` establishes the no-drift property from any state. -/
theorem inv_mount (s : State) : Inv (step Action.mount s) := by
  cases hx : s.registry.get s.binding.modalName with
  | none =>
      intro v hv
      simp only [step, hx] at hv
      exact Option.noConfusion hv
  | some b =>
      intro v hv
      simp only [step, hx] at hv ⊢
      exact Option.some.inj hv

/-- Every action preserves the no-drift property. -/
theorem inv_step (a : Action) (s : State) (h : Inv s) : Inv (step a s) := by
  cases a with
  | mount => exact inv_mount s
  | dismiss =>
      intro v hv
      exact propagate_inv s.registry _ s.binding h v hv
  | navigate =>
      cases hx : s.registry.get s.binding.modalName with
      | none =>
          intro v hv
          simp only [step, hx] at hv ⊢
          exact Option.noConfusion hv
      | some b =>
          intro v hv
          simp only [step, hx] at hv ⊢
          exact propagate_inv s.registry _ s.binding h v hv
  | regOpen n =>
      intro v hv
      exact propagate_inv s.registry _ s.binding h v hv
  | regClose n =>
      intro v hv
      exact propagate_inv s.registry _ s.binding h v hv
  | setProp n =>
      intro v hv
      exact h v hv

/-- The no-drift property is preserved by whole runs. -/
theorem inv_run (acts : List Action) (s : State) (h : Inv s) : Inv (run acts s) := by
  induction acts generalizing s with
  | nil => exact h
  | cons a rest ih => exact ih (step a s) (inv_step a s h)

/-- The close protocol never turns any entry open. -/
theorem closeProtocol_registry_not_open (s : State) (n : String)
    (hn : s.registry.get n ≠ some true) :
    (closeProtocol s).registry.get n ≠ some true := by
  by_cases he : n = s.binding.modalName
  · subst he
    exact get_closeModal_self s.registry _
  · intro hafter
    rw [show (closeProtocol s).registry = s.registry.closeModal s.binding.modalName from rfl,
      get_closeModal_other s.registry s.binding.modalName n he] at hafter
    exact hn hafter

/-- The close protocol never raises the local flag. -/
theorem closeProtocol_flag_true (s : State)
    (h : (closeProtocol s).binding.modalIsOpen = true) :
    s.binding.modalIsOpen = true := by
  by_cases hch : (closeProtocol s).binding.modalIsOpen = s.binding.modalIsOpen
  · exact hch.symm.trans h
  · exfalso
    have hnew := watcherFire_change (s.registry.get s.binding.modalName)
        ((s.registry.closeModal s.binding.modalName).get s.binding.modalName)
        s.binding.modalIsOpen hch
    have hflag : watcherFire (s.registry.get s.binding.modalName)
        ((s.registry.closeModal s.binding.modalName).get s.binding.modalName)
        s.binding.modalIsOpen = true := h
    rw [hflag] at hnew
    exact get_closeModal_self s.registry s.binding.modalName hnew

/-! ## The claims -/

/-- C1: every execution of the close protocol — whether reached from a
dismiss gesture or from the navigation auto-close — appends exactly the
two effects, in order: one payload-free `closeModal` emission to the
embedding caller, then the registry's close call for the captured name;
the registry is mutated exactly by that close call, and neither effect
runs without the other. -/
theorem C1_close_protocol_effects (s : State) :
    (closeProtocol s).trace
        = s.trace ++ [Effect.emitClosed, Effect.registryClose s.binding.modalName]
    ∧ (closeProtocol s).registry = s.registry.closeModal s.binding.modalName
    ∧ step Action.dismiss s = closeProtocol s
    ∧ (s.registry.get s.binding.modalName ≠ none →
        step Action.navigate s = closeProtocol s) := by
  refine ⟨rfl, rfl, rfl, ?_⟩
  intro h
  cases hx : s.registry.get s.binding.modalName with
  | none => exact absurd hx h
  | some b => simp [step, hx]

/-- Witness for C1 at a concrete state with an open entry for `"m"`. -/
theorem C1_close_protocol_effects_witness :
    step Action.navigate (init ⟨false, "m"⟩ (Registry.empty.openModal "m"))
      = closeProtocol (init ⟨false, "m"⟩ (Registry.empty.openModal "m")) :=
  (C1_close_protocol_effects (init ⟨false, "m"⟩ (Registry.empty.openModal "m"))).2.2.2
    (by decide)

/-- C2: on every navigation signal, if the registry holds an entry for
the bound name (open or closed) the close protocol runs exactly once
(the trace grows by exactly one emission plus one registry close); if
no entry exists, the state is unchanged and the protocol does not run. -/
theorem C2_navigation_close (s : State) :
    (s.registry.get s.binding.modalName ≠ none →
      step Action.navigate s = closeProtocol s
      ∧ (step Action.navigate s).trace
          = s.trace ++ [Effect.emitClosed, Effect.registryClose s.binding.modalName])
    ∧ (s.registry.get s.binding.modalName = none → step Action.navigate s = s) := by
  constructor
  · intro h
    cases hx : s.registry.get s.binding.modalName with
    | none => exact absurd hx h
    | some b => constructor <;> simp [step, hx, closeProtocol]
  · intro h
    simp [step, h]

/-- Witness for C2: a navigation signal with an existing-but-closed
entry re-runs the close protocol; one with no entry does nothing. -/
theorem C2_navigation_close_witness :
    (step Action.navigate
        (init ⟨false, "m"⟩ ((Registry.empty.openModal "m").closeModal "m"))).trace
      = [Effect.emitClosed, Effect.registryClose "m"]
    ∧ step Action.navigate (init ⟨false, "m"⟩ Registry.empty)
        = init ⟨false, "m"⟩ Registry.empty := by
  constructor
  · have h := (C2_navigation_close
      (init ⟨false, "m"⟩ ((Registry.empty.openModal "m").closeModal "m"))).1 (by decide)
    simpa using h.2
  · exact (C2_navigation_close (init ⟨false, "m"⟩ Registry.empty)).2 rfl

/-- C3 counterexample: the claim asserts that in the card-style variant
no Enter key dismisses the modal, but the wrapping `div`'s
`@keydown.enter="closeModal()"` handler is registered in both variants
and keyboard events bubble through the panel, so an Enter keydown from
focused content triggers the close protocol in the card variant too. -/
theorem C3_enter_dismisses_card_variant :
    ¬ (closeFires false Gesture.enterInContent = false) := by decide

/-- C3 (amended): the click dismiss targets differ by variant — in the
image variant a click anywhere in the content region dismisses, and in
the card variant clicks in the content region do not dismiss and only
the explicit close control's click does — but the Enter key triggers
the close protocol in both variants, not only in the image variant. -/
theorem C3_dismiss_targets :
    (closeFires true Gesture.clickContent = true
      ∧ closeFires true Gesture.enterInContent = true)
    ∧ (closeFires false Gesture.clickCloseControl = true
      ∧ closeFires false Gesture.clickContent = false
      ∧ closeFires false Gesture.enterInContent = true) := by decide

/-- C4: on mount, an existing entry's `isOpen` is copied into the local
flag, and an absent entry leaves the flag at its initial `false`. -/
theorem C4_mount_initializes_flag (p : Props) (r : Registry) (b : Bool) :
    (r.get p.modalName = some b →
      (step Action.mount (init p r)).binding.modalIsOpen = b)
    ∧ (r.get p.modalName = none →
      (step Action.mount (init p r)).binding.modalIsOpen = false) := by
  constructor <;> intro h <;> simp [step, init, h]

/-- Witness for C4: mounting after `open("m")` initializes the flag to
`true`; mounting with no entry leaves it `false`. -/
theorem C4_mount_initializes_flag_witness :
    (step Action.mount (init ⟨false, "m"⟩ (Registry.empty.openModal "m"))).binding.modalIsOpen
      = true
    ∧ (step Action.mount (init ⟨false, "m"⟩ Registry.empty)).binding.modalIsOpen = false :=
  ⟨(C4_mount_initializes_flag ⟨false, "m"⟩ (Registry.empty.openModal "m") true).1 (by decide),
   (C4_mount_initializes_flag ⟨false, "m"⟩ Registry.empty true).2 rfl⟩

/-- C5: whenever the registry entry's `isOpen` for the bound name
changes to a defined value under an external `open`/`close` call, the
local flag is overwritten to that value; and in every step of the
system, any change of the local flag copies the current registry value
for the bound name (registry-to-view only; no other write rule). -/
theorem C5_one_directional_sync (s : State) (a : Action) (n : String) (v : Bool) :
    ((s.registry.openModal n).get s.binding.modalName ≠ s.registry.get s.binding.modalName →
      (s.registry.openModal n).get s.binding.modalName = some v →
      (step (Action.regOpen n) s).binding.modalIsOpen = v)
    ∧ ((s.registry.closeModal n).get s.binding.modalName ≠ s.registry.get s.binding.modalName →
      (s.registry.closeModal n).get s.binding.modalName = some v →
      (step (Action.regClose n) s).binding.modalIsOpen = v)
    ∧ ((step a s).binding.modalIsOpen ≠ s.binding.modalIsOpen →
      (step a s).registry.get s.binding.modalName
        = some ((step a s).binding.modalIsOpen)) := by
  refine ⟨?_, ?_, ?_⟩
  · intro hne hv
    exact watcherFire_ne _ _ _ _ hne hv
  · intro hne hv
    exact watcherFire_ne _ _ _ _ hne hv
  · intro hne
    cases a with
    | mount =>
        cases hx : s.registry.get s.binding.modalName with
        | none =>
            simp only [step, hx] at hne
            exact absurd rfl hne
        | some b =>
            simp only [step, hx] at hne ⊢
    | dismiss => exact watcherFire_change _ _ _ hne
    | navigate =>
        cases hx : s.registry.get s.binding.modalName with
        | none =>
            simp only [step, hx] at hne
            exact absurd rfl hne
        | some b =>
            simp only [step, hx] at hne ⊢
            exact watcherFire_change _ _ _ hne
    | regOpen m => exact watcherFire_change _ _ _ hne
    | regClose m => exact watcherFire_change _ _ _ hne
    | setProp m => exact absurd rfl hne

/-- Witness for C5: an external `open` raises the flag, an external
`close` lowers it, and the mount-time flag write copies the registry. -/
theorem C5_one_directional_sync_witness :
    (step (Action.regOpen "m") (init ⟨false, "m"⟩ Registry.empty)).binding.modalIsOpen = true
    ∧ (step (Action.regClose "m")
        { registry := Registry.empty.openModal "m"
          binding := { modalName := "m", modalIsOpen := true }
          trace := []
          props := ⟨false, "m"⟩ }).binding.modalIsOpen = false
    ∧ (step Action.mount (init ⟨false, "m"⟩ (Registry.empty.openModal "m"))).registry.get
        ((init ⟨false, "m"⟩ (Registry.empty.openModal "m")).binding.modalName)
      = some ((step Action.mount
          (init ⟨false, "m"⟩ (Registry.empty.openModal "m"))).binding.modalIsOpen) :=
  ⟨(C5_one_directional_sync (init ⟨false, "m"⟩ Registry.empty) Action.mount "m" true).1
      (by decide) (by decide),
   (C5_one_directional_sync
      { registry := Registry.empty.openModal "m"
        binding := { modalName := "m", modalIsOpen := true }
        trace := []
        props := ⟨false, "m"⟩ } Action.mount "m" false).2.1 (by decide) (by decide),
   (C5_one_directional_sync (init ⟨false, "m"⟩ (Registry.empty.openModal "m"))
      Action.mount "m" true).2.2 (by decide)⟩

/-- C6: no drift — after the mount-time initialization, the local flag
equals the registry entry's `isOpen` for the bound name whenever that
entry exists, across every sequence of registry mutations, dismiss
gestures, navigation signals, mounts, and prop changes. -/
theorem C6_no_drift (p : Props) (r : Registry) (acts : List Action) :
    Inv (run acts (step Action.mount (init p r))) :=
  inv_run acts (step Action.mount (init p r)) (inv_mount (init p r))

/-- Witness for C6: after mounting with no entry and an external
`open("m")`, the local flag agrees with the entry (it is `true`). -/
theorem C6_no_drift_witness :
    (run [Action.regOpen "m"]
      (step Action.mount (init ⟨false, "m"⟩ Registry.empty))).binding.modalIsOpen = true :=
  C6_no_drift ⟨false, "m"⟩ Registry.empty [Action.regOpen "m"] true (by decide)

/-- C7: mounting has no effect on the registry — the initialization
read creates no entry — and with no entry for the bound name the local
flag stays `false`. -/
theorem C7_mount_no_registry_effect (p : Props) (r : Registry) :
    (step Action.mount (init p r)).registry = r
    ∧ (r.get p.modalName = none →
        (step Action.mount (init p r)).binding.modalIsOpen = false
        ∧ (step Action.mount (init p r)).registry.get p.modalName = none) := by
  constructor
  · cases hx : r.get p.modalName with
    | none => simp [step, init, hx]
    | some b => simp [step, init, hx]
  · intro h
    constructor <;> simp [step, init, h]

/-- Witness for C7: mounting a binding for the never-opened name
`"search"` leaves the registry empty and the flag `false`. -/
theorem C7_mount_no_registry_effect_witness :
    (step Action.mount (init ⟨false, "search"⟩ Registry.empty)).registry = Registry.empty
    ∧ (step Action.mount (init ⟨false, "search"⟩ Registry.empty)).binding.modalIsOpen = false
    ∧ (step Action.mount (init ⟨false, "search"⟩ Registry.empty)).registry.get "search"
        = none := by
  have h := C7_mount_no_registry_effect ⟨false, "search"⟩ Registry.empty
  exact ⟨h.1, (h.2 rfl).1, (h.2 rfl).2⟩

/-- C8: the binding's own interactions (mount, dismiss gesture,
navigation signal) never turn a closed or absent entry into an open
one, and never raise the local flag except by copying an open registry
entry for the bound name. -/
theorem C8_binding_never_opens (s : State) (a : Action) (n : String) :
    (a = Action.mount ∨ a = Action.dismiss ∨ a = Action.navigate) →
    ((s.registry.get n ≠ some true → (step a s).registry.get n ≠ some true)
    ∧ ((step a s).binding.modalIsOpen = true →
        s.binding.modalIsOpen = true
        ∨ (step a s).registry.get s.binding.modalName = some true)) := by
  intro ha
  rcases ha with rfl | rfl | rfl
  · cases hx : s.registry.get s.binding.modalName with
    | none =>
        refine ⟨?_, ?_⟩ <;> simp only [step, hx]
        · exact fun hn => hn
        · exact fun h => Or.inl h
    | some b =>
        refine ⟨?_, ?_⟩ <;> simp only [step, hx]
        · exact fun hn => hn
        · intro h
          refine Or.inr ?_
          rw [h]
  · exact ⟨closeProtocol_registry_not_open s n,
      fun h => Or.inl (closeProtocol_flag_true s h)⟩
  · cases hx : s.registry.get s.binding.modalName with
    | none =>
        refine ⟨?_, ?_⟩ <;> simp only [step, hx]
        · exact fun hn => hn
        · exact fun h => Or.inl h
    | some b =>
        refine ⟨?_, ?_⟩ <;> simp only [step, hx]
        · exact closeProtocol_registry_not_open s n
        · exact fun h => Or.inl (closeProtocol_flag_true s h)

/-- Witness for C8: navigating with a closed entry keeps it closed, and
the mount-time flag raise copies an open entry. -/
theorem C8_binding_never_opens_witness :
    (step Action.navigate
      (init ⟨false, "m"⟩ ((Registry.empty.openModal "m").closeModal "m"))).registry.get "m"
      ≠ some true
    ∧ ((init ⟨false, "m"⟩ (Registry.empty.openModal "m")).binding.modalIsOpen = true
      ∨ (step Action.mount
          (init ⟨false, "m"⟩ (Registry.empty.openModal "m"))).registry.get
          ((init ⟨false, "m"⟩ (Registry.empty.openModal "m")).binding.modalName)
        = some true) :=
  ⟨((C8_binding_never_opens
      (init ⟨false, "m"⟩ ((Registry.empty.openModal "m").closeModal "m"))
      Action.navigate "m" (Or.inr (Or.inr rfl))).1 (by decide)),
   ((C8_binding_never_opens (init ⟨false, "m"⟩ (Registry.empty.openModal "m"))
      Action.mount "m" (Or.inl rfl)).2 (by decide))⟩

/-- C9: the bound name is captured once at setup from the `modalName`
prop; a later prop change alters nothing but the stored prop value, and
the captured name survives every action sequence. -/
theorem C9_name_captured_once (p : Props) (r : Registry) (acts : List Action)
    (s : State) (n : String) :
    (run acts (init p r)).binding.modalName = p.modalName
    ∧ (step (Action.setProp n) s).binding = s.binding
    ∧ (step (Action.setProp n) s).registry = s.registry
    ∧ (step (Action.setProp n) s).trace = s.trace
    ∧ (step (Action.setProp n) s).props.modalName = n :=
  ⟨run_modalName acts (init p r), rfl, rfl, rfl, rfl⟩

/-- C10: when the watched registry value for the bound name reads as
absent (`undefined`), the registry watcher performs no update and the
local flag retains its previous value. -/
theorem C10_absent_keeps_flag (r r' : Registry) (b : Binding)
    (h : r'.get b.modalName = none) :
    (propagate r r' b).modalIsOpen = b.modalIsOpen := by
  show watcherFire (r.get b.modalName) (r'.get b.modalName) b.modalIsOpen = b.modalIsOpen
  rw [h]
  unfold watcherFire
  split <;> rfl

/-- Witness for C10: a watched value reading as absent leaves a raised
flag raised. -/
theorem C10_absent_keeps_flag_witness :
    (propagate (Registry.empty.openModal "m") Registry.empty
      { modalName := "m", modalIsOpen := true }).modalIsOpen = true :=
  C10_absent_keeps_flag (Registry.empty.openModal "m") Registry.empty
    { modalName := "m", modalIsOpen := true } rfl

end ModalBase
